import Mathlib

/-!
Shallow embedding of the gee_scale repository: the raster sampling and
statistics engine of `check_tif.py` and `compare_sst.py`, and the export
naming logic of `export_oisst.py` / `export_hycom_temp0.py`.

Grid values are modelled as rationals (exact arithmetic in place of IEEE
floats); a 2-D array of shape height x width is modelled as a function
`Nat → Nat → ℚ` together with its dimensions.
-/

namespace GeeScale

/-- A raster value object as decoded by `rasterio.open`: dimensions, grid,
geotransform with zero rotation terms (origin-x, pixel-width, origin-y,
pixel-height), CRS EPSG code, and optional nodata sentinel. -/
structure Raster where
  height : Nat
  width : Nat
  cell : Nat → Nat → ℚ
  originX : ℚ
  pixelW : ℚ
  originY : ℚ
  pixelH : ℚ
  crsEpsg : Int
  nodata : Option ℚ

/-- `np.isclose(v, s)` with the numpy defaults `rtol=1e-5`, `atol=1e-8`:
`|v - s| <= atol + rtol * |s|`. This is the nodata test used by
`tiff_sst_value` in compare_sst.py (line 85). -/
def npIsClose (v s : ℚ) : Bool :=
  decide (|v - s| ≤ 1 / 100000000 + (1 / 100000) * |s|)

/-- Exact-equality nodata test: the classification performed by
`ds.read(1, masked=True)` and `np.ma.masked_equal` in check_tif.py
(lines 74 and 99). -/
def maskedEqual (v s : ℚ) : Bool :=
  decide (v = s)

/-- Python/numpy integer indexing into an axis of length `n`: indices in
`[0, n)` are used directly, indices in `[-n, 0)` wrap around to `n + i`,
anything else raises `IndexError` (modelled as `none`). -/
def npIndex (n : Nat) (i : Int) : Option Nat :=
  if 0 ≤ i ∧ i < (n : Int) then some i.toNat
  else if -(n : Int) ≤ i ∧ i < 0 then some (i + n).toNat
  else none

/-- Possible outcomes of `tiff_sst_value`: `sys.exit` with a message, an
uncaught `IndexError`, `np.nan` (missing), or a read value. -/
inductive TiffResult where
  | sysExit (msg : String)
  | indexError
  | nanValue
  | value (v : ℚ)
deriving DecidableEq

/-- The row computed by `ds.index(lon, lat)` for a zero-rotation
geotransform: `floor((lat - originY) / pixelH)`. -/
def rowOf (r : Raster) (lat : ℚ) : Int :=
  ⌊(lat - r.originY) / r.pixelH⌋

/-- The column computed by `ds.index(lon, lat)` for a zero-rotation
geotransform: `floor((lon - originX) / pixelW)`. -/
def colOf (r : Raster) (lon : ℚ) : Int :=
  ⌊(lon - r.originX) / r.pixelW⌋

/-- Embedding of `tiff_sst_value` (compare_sst.py lines 73-87): exit if the
file is missing or the CRS is not EPSG:4326; otherwise compute `(row, col)`
with `ds.index`, read `data[row, col]` with Python indexing semantics, and
return NaN when `np.isclose(val, nodata)`. -/
def tiff_sst_value (fileExists : Bool) (r : Raster) (lon lat : ℚ) : TiffResult :=
  if fileExists = false then .sysExit "TIFF not found"
  else if r.crsEpsg ≠ 4326 then
    .sysExit "TIFF CRS is not EPSG:4326 - re-project or adjust code."
  else
    match npIndex r.height (rowOf r lat), npIndex r.width (colOf r lon) with
    | some i, some j =>
        match r.nodata with
        | some nd => if npIsClose (r.cell i j) nd then .nanValue else .value (r.cell i j)
        | none => .value (r.cell i j)
    | _, _ => .indexError

/-- A concrete 2x2 raster: grid `[[1,2],[3,4]]` (cell `(i,j)` holds
`2*i+j+1`), origin `(0,0)`, pixel size `(1,-1)`, CRS EPSG:4326, nodata
sentinel `-9999`. -/
def cexRaster : Raster :=
  ⟨2, 2, fun i j => 2 * i + j + 1, 0, 1, 0, -1, 4326, some (-9999)⟩

/-- A copy of `cexRaster` whose CRS is Web Mercator (EPSG:3857) instead of
EPSG:4326. -/
def badCrsRaster : Raster :=
  ⟨2, 2, fun i j => 2 * i + j + 1, 0, 1, 0, -1, 3857, some (-9999)⟩

/-- C1: the claim fails on the code. On `cexRaster`, the query point
`(lon, lat) = (0.5, 0.5)` lies above the raster and maps to `row = -1`,
yet `tiff_sst_value` returns the value `3` read from the in-grid cell
`(1, 0)` (Python negative indexing wraps around), not a Missing result;
and the query `(0.5, -2.5)` maps to `row = 2` and raises an uncaught
`IndexError` instead of returning Missing. -/
theorem c1_out_of_bounds_not_missing :
    rowOf cexRaster (1 / 2) = -1
    ∧ tiff_sst_value true cexRaster (1 / 2) (1 / 2) = TiffResult.value 3
    ∧ rowOf cexRaster (-5 / 2) = 2
    ∧ tiff_sst_value true cexRaster (1 / 2) (-5 / 2) = TiffResult.indexError := by
  have hrow : rowOf cexRaster (1 / 2) = -1 := by norm_num [rowOf, cexRaster]
  have hcol : colOf cexRaster (1 / 2) = 0 := by norm_num [colOf, cexRaster]
  have hrow2 : rowOf cexRaster (-5 / 2) = 2 := by norm_num [rowOf, cexRaster]
  have h1 : npIndex cexRaster.height (rowOf cexRaster (1 / 2)) = some 1 := by
    rw [hrow]; decide
  have h2 : npIndex cexRaster.width (colOf cexRaster (1 / 2)) = some 0 := by
    rw [hcol]; decide
  have h3 : npIndex cexRaster.height (rowOf cexRaster (-5 / 2)) = none := by
    rw [hrow2]; decide
  refine ⟨hrow, ?_, hrow2, ?_⟩
  · simp only [tiff_sst_value, h1, h2]
    norm_num [cexRaster, npIsClose]
  · simp only [tiff_sst_value, h3]
    norm_num [cexRaster]

/-- Flatten a height x width function-grid into the row-major list of its
cells, the order in which `ds.read(1)` materialises the band. -/
def cellsOf (h w : Nat) (f : Nat → Nat → ℚ) : List ℚ :=
  (List.range h).flatMap (fun i => (List.range w).map (fun j => f i j))

/-- Cell validity: with no sentinel configured every value is valid;
otherwise a cell is valid unless it equals the sentinel exactly, the rule
applied by `ds.read(1, masked=True)` and `np.ma.masked_equal`. -/
def isValidCell (nodata : Option ℚ) (v : ℚ) : Bool :=
  match nodata with
  | none => true
  | some s => !maskedEqual v s

/-- The valid cells that the masked statistics of check_tif.py range over. -/
def validCells (h w : Nat) (f : Nat → Nat → ℚ) (nodata : Option ℚ) : List ℚ :=
  (cellsOf h w f).filter (isValidCell nodata)

/-- The statistics record printed by check_tif.py: min, max, mean, and the
population variance (`var`); the printed standard deviation is `sqrt var`,
kept squared here to stay inside exact arithmetic. -/
structure Stats where
  min : ℚ
  max : ℚ
  mean : ℚ
  var : ℚ
deriving DecidableEq

/-- Embedding of the statistics block of check_tif.py (lines 74-83):
`np.nanmin`, `np.nanmax`, `np.nanmean`, `np.nanstd` over the masked band,
i.e. over the valid cells only. A band with zero valid cells yields `none`,
the all-NaN undefined-statistics sentinel. -/
def reduce (h w : Nat) (f : Nat → Nat → ℚ) (nodata : Option ℚ) : Option Stats :=
  match validCells h w f nodata with
  | [] => none
  | v :: rest =>
      let n : ℚ := ((v :: rest).length : ℚ)
      let s : ℚ := (v :: rest).sum
      let s2 : ℚ := ((v :: rest).map (fun x => x * x)).sum
      some ⟨rest.foldl min v, rest.foldl max v, s / n, s2 / n - (s / n) * (s / n)⟩

/-- The thumbnail scale clamp of check_tif.py line 90:
`max(min(scale, 1.0), 0.01)`. -/
def clampScale (s : ℚ) : ℚ :=
  max (min s 1) (1 / 100)

/-- A thumbnail output dimension, check_tif.py lines 91-92:
`int(n * scale)` after the clamp; the product is nonnegative so Python
`int` truncation coincides with floor. -/
def outDim (n : Nat) (scale : ℚ) : Nat :=
  (⌊(n : ℚ) * clampScale scale⌋).toNat

/-- Modelled from the spec: first source index of the block feeding output
index `i` when reducing an axis of length `n` to `out` cells; the kernel of
`rasterio Resampling.average` is GDAL library code absent from the
repository, so the block layout follows section 4.4 of the spec: equal
blocks of `n / out` cells, the last block absorbing the remainder. -/
def blockLo (n out i : Nat) : Nat :=
  i * (n / out)

/-- Modelled from the spec: one-past-the-last source index of the block
feeding output index `i` (see `blockLo`); the last block extends to `n`. -/
def blockHi (n out i : Nat) : Nat :=
  if i + 1 = out then n else (i + 1) * (n / out)

/-- The source cells of the block feeding output cell `(i, j)`. -/
def blockCells (h w outH outW : Nat) (f : Nat → Nat → ℚ) (i j : Nat) : List ℚ :=
  (List.range' (blockLo h outH i) (blockHi h outH i - blockLo h outH i)).flatMap
    (fun r => (List.range' (blockLo w outW j) (blockHi w outW j - blockLo w outW j)).map
      (fun c => f r c))

/-- Single-pass accumulation of the sum and count of the valid cells of a
block, the way an averaging kernel walks the block once. -/
def accumulate (cells : List ℚ) (valid : ℚ → Bool) : ℚ × Nat :=
  cells.foldl (fun acc v => if valid v then (acc.1 + v, acc.2 + 1) else acc) (0, 0)

/-- Modelled from the spec: the value of one output cell of the
block-average resampler — the mean of the valid cells of its block, or the
propagated nodata sentinel when the block has no valid cell. -/
def blockAverage (cells : List ℚ) (nodata : Option ℚ) : ℚ :=
  let acc := accumulate cells (isValidCell nodata)
  if acc.2 = 0 then nodata.getD 0 else acc.1 / (acc.2 : ℚ)

/-- Modelled from the spec: the block-average resampler invoked by
check_tif.py lines 94-98 (`ds.read` with `out_shape` and
`Resampling.average`), producing an `outDim h scale` x `outDim w scale`
grid of block averages. -/
def resample (h w : Nat) (f : Nat → Nat → ℚ) (nodata : Option ℚ) (scale : ℚ) : List (List ℚ) :=
  (List.range (outDim h scale)).map (fun i =>
    (List.range (outDim w scale)).map (fun j =>
      blockAverage (blockCells h w (outDim h scale) (outDim w scale) f i j) nodata))

/-- A function-grid materialised as a row-major list of rows. -/
def gridToList (h w : Nat) (f : Nat → Nat → ℚ) : List (List ℚ) :=
  (List.range h).map (fun i => (List.range w).map (fun j => f i j))

theorem accumulate_foldl (cells : List ℚ) (p : ℚ → Bool) (s0 : ℚ) (k0 : Nat) :
    cells.foldl (fun acc v => if p v then (acc.1 + v, acc.2 + 1) else acc) (s0, k0)
      = (s0 + (cells.filter p).sum, k0 + (cells.filter p).length) := by
  induction cells generalizing s0 k0 with
  | nil => simp
  | cons a l ih =>
    by_cases h : p a
    · simp [List.filter_cons, h, ih, add_assoc, Nat.add_comm]
    · simp [List.filter_cons, h, ih]

/-- The one-pass accumulator agrees with filter-then-sum/count. -/
theorem accumulate_eq (cells : List ℚ) (p : ℚ → Bool) :
    accumulate cells p = ((cells.filter p).sum, (cells.filter p).length) := by
  simpa [accumulate] using accumulate_foldl cells p 0 0

theorem getD_map_range {α : Type} (n i : Nat) (g : Nat → α) (d : α) (hi : i < n) :
    ((List.range n).map g).getD i d = g i := by
  simp [List.getD, List.getElem?_map, List.getElem?_range hi]

/-- The 4x4 worked-example grid of the spec: row-major values 1..16. -/
def g16 : Nat → Nat → ℚ := fun i j => 4 * i + j + 1

/-- `g16` with the cell at row 0, col 0 replaced by the sentinel -9999. -/
def g16m : Nat → Nat → ℚ := fun i j => if i = 0 ∧ j = 0 then -9999 else 4 * i + j + 1

/-- C2: for a grid in which every cell is classified as nodata there are
zero valid cells, and the statistics reduction returns the
undefined-statistics sentinel (`none`, the all-NaN result) for min, max,
mean and std alike; the reduction is a total function, so no exception is
raised and no division is performed on this path. -/
theorem c2_all_nodata_sentinel (h w : Nat) (f : Nat → Nat → ℚ) (s : ℚ)
    (hall : ∀ i j, i < h → j < w → f i j = s) :
    reduce h w f (some s) = none := by
  have hv : validCells h w f (some s) = [] := by
    rw [validCells, List.filter_eq_nil_iff]
    intro a ha
    rcases List.mem_flatMap.mp ha with ⟨i, hi, hrow⟩
    rcases List.mem_map.mp hrow with ⟨j, hj, rfl⟩
    have := hall i j (List.mem_range.mp hi) (List.mem_range.mp hj)
    simp [isValidCell, maskedEqual, this]
  rw [reduce, hv]

/-- Witness for C2 at a concrete input: a 2x2 grid entirely filled with the
sentinel -9999 reduces to the undefined-statistics sentinel. -/
theorem c2_witness :
    reduce 2 2 (fun _ _ => -9999) (some (-9999)) = none :=
  c2_all_nodata_sentinel 2 2 (fun _ _ => -9999) (-9999) (fun _ _ _ _ => rfl)

/-- C3: every output cell of the block-average resampler equals the
arithmetic mean (sum divided by count) of exactly the valid source cells of
that output cell's block; a block with zero valid cells is marked nodata by
propagating the sentinel, never by averaging sentinel values. -/
theorem c3_block_average_cells (h w : Nat) (f : Nat → Nat → ℚ) (nodata : Option ℚ)
    (scale : ℚ) (i j : Nat) (hi : i < outDim h scale) (hj : j < outDim w scale) :
    ((resample h w f nodata scale).getD i []).getD j 0 =
      if ((blockCells h w (outDim h scale) (outDim w scale) f i j).filter
            (isValidCell nodata)).length = 0
      then nodata.getD 0
      else ((blockCells h w (outDim h scale) (outDim w scale) f i j).filter
              (isValidCell nodata)).sum
        / (((blockCells h w (outDim h scale) (outDim w scale) f i j).filter
              (isValidCell nodata)).length : ℚ) := by
  rw [resample, getD_map_range _ _ _ _ hi, getD_map_range _ _ _ _ hj]
  simp only [blockAverage, accumulate_eq]

/-- Witness for C3 at a concrete input: the top-left output cell of the
half-scale thumbnail of the worked-example grid is the mean of its 2x2
block, `(1+2+5+6)/4 = 7/2`. -/
theorem c3_witness :
    ((resample 4 4 g16 (some (-9999)) (1 / 2)).getD 0 []).getD 0 0 = 7 / 2 := by
  have h2 : outDim 4 (1 / 2) = 2 := by
    norm_num [outDim, clampScale]
    decide
  have h := c3_block_average_cells 4 4 g16 (some (-9999)) (1 / 2) 0 0
    (by rw [h2]; norm_num) (by rw [h2]; norm_num)
  rw [h, h2]
  norm_num [blockCells, blockLo, blockHi, List.range', isValidCell, maskedEqual, g16,
    List.filter_cons]

/-- C6: resampling at scale 1.0 is the identity: the output has the same
height and width as the input and every cell holds the input cell's value
(a one-cell block is its own average when valid, and propagates the
sentinel, which is the cell's own value, when nodata). -/
theorem c6_resample_identity (h w : Nat) (f : Nat → Nat → ℚ) (nodata : Option ℚ) :
    resample h w f nodata 1 = gridToList h w f := by
  have hc : clampScale 1 = 1 := by norm_num [clampScale]
  have hd : ∀ n : Nat, outDim n 1 = n := by
    intro n
    simp [outDim, hc]
  rw [resample, gridToList, hd, hd]
  apply List.map_congr_left
  intro i hi
  apply List.map_congr_left
  intro j hj
  have hi' := List.mem_range.mp hi
  have hj' := List.mem_range.mp hj
  have hdivh : h / h = 1 := Nat.div_self (by omega)
  have hdivw : w / w = 1 := Nat.div_self (by omega)
  have hloh : blockLo h h i = i := by simp [blockLo, hdivh]
  have hlow : blockLo w w j = j := by simp [blockLo, hdivw]
  have hhih : blockHi h h i = i + 1 := by
    rw [blockHi, hdivh]
    split
    · omega
    · omega
  have hhiw : blockHi w w j = j + 1 := by
    rw [blockHi, hdivw]
    split
    · omega
    · omega
  have hbc : blockCells h w h w f i j = [f i j] := by
    simp [blockCells, hloh, hlow, hhih, hhiw, List.range']
  rw [hbc]
  cases nodata with
  | none => simp [blockAverage, accumulate, isValidCell]
  | some s =>
    by_cases hv : f i j = s
    · simp [blockAverage, accumulate, isValidCell, maskedEqual, hv]
    · simp [blockAverage, accumulate, isValidCell, maskedEqual, hv]

/-- C4 counterexample: the claim that both thumbnail dimensions are at
least 1 for every raster with positive width and height fails. With height
1 (positive) and requested scale 1/2 — inside `[0.01, 1]`, so the clamp
leaves it unchanged — the computed dimension `int(1 * 0.5)` is 0. -/
theorem c4_counterexample :
    clampScale (1 / 2) = 1 / 2 ∧ outDim 1 (1 / 2) = 0 := by
  constructor
  · norm_num [clampScale]
  · norm_num [outDim, clampScale]

/-- C4 amended: the effective scale is the clamp of the request into
`[0.01, 1]` (out-of-range values clamped, never rejected) and each output
dimension is `floor(n * effective_scale)`; that dimension is at least 1
whenever `n * effective_scale ≥ 1` — in particular whenever `n ≥ 100` — but
can be 0 for smaller axes. -/
theorem c4_clamp_and_dims (n : Nat) (s : ℚ) :
    1 / 100 ≤ clampScale s
    ∧ clampScale s ≤ 1
    ∧ (1 / 100 ≤ s → s ≤ 1 → clampScale s = s)
    ∧ (s < 1 / 100 → clampScale s = 1 / 100)
    ∧ (1 < s → clampScale s = 1)
    ∧ (1 ≤ (n : ℚ) * clampScale s → 1 ≤ outDim n s)
    ∧ (100 ≤ n → 1 ≤ outDim n s) := by
  have hlb : 1 / 100 ≤ clampScale s := le_max_right _ _
  have hfloor : ∀ hx : 1 ≤ (n : ℚ) * clampScale s, 1 ≤ outDim n s := by
    intro hx
    have h1 : (1 : Int) ≤ ⌊(n : ℚ) * clampScale s⌋ := by
      apply Int.le_floor.mpr
      exact_mod_cast hx
    rw [outDim]
    omega
  refine ⟨hlb, ?_, ?_, ?_, ?_, hfloor, ?_⟩
  · exact max_le (min_le_right s 1) (by norm_num)
  · intro h1 h2
    rw [clampScale, min_eq_left h2, max_eq_left h1]
  · intro hs
    rw [clampScale, min_eq_left (le_trans hs.le (by norm_num)), max_eq_right hs.le]
  · intro hs
    rw [clampScale, min_eq_right hs.le, max_eq_left (by norm_num)]
  · intro hn
    apply hfloor
    have hn' : (100 : ℚ) ≤ (n : ℚ) := by exact_mod_cast hn
    calc (1 : ℚ) = 100 * (1 / 100) := by norm_num
    _ ≤ (n : ℚ) * clampScale s := by
        apply mul_le_mul hn' hlb (by norm_num) (by positivity)

/-- Witness for C4 at a concrete input: a request of scale 2 on a
200-cell-wide axis clamps to 1 and yields a dimension of at least 1. -/
theorem c4_witness :
    clampScale 2 = 1 ∧ 1 ≤ outDim 200 2 := by
  have h := c4_clamp_and_dims 200 2
  exact ⟨h.2.2.2.2.1 (by norm_num), h.2.2.2.2.2.2 (by norm_num)⟩

/-- C5 counterexample: the two nodata classifications disagree. At value
-9998.91 and sentinel -9999, the sampling path (`np.isclose`) classifies
the cell as missing while the statistics path (exact masked equality)
treats it as valid. -/
theorem c5_counterexample :
    npIsClose (-999891 / 100) (-9999) = true
    ∧ maskedEqual (-999891 / 100) (-9999) = false := by
  constructor
  · simp only [npIsClose, decide_eq_true_eq]
    have hd : (-999891 / 100 : ℚ) - (-9999) = 9 / 100 := by norm_num
    rw [hd, abs_of_nonneg (by norm_num : (0 : ℚ) ≤ 9 / 100)]
    norm_num
  · simp only [maskedEqual, decide_eq_false_iff_not]
    norm_num

/-- C5 amended: the statistics path masks by exact equality to the sentinel
while the sampling path uses the `np.isclose` tolerance, and they agree in
one direction only: every cell the statistics path treats as missing is
also treated as missing by the sampling path (but not conversely). -/
theorem c5_exact_implies_isclose (v s : ℚ) (hv : maskedEqual v s = true) :
    npIsClose v s = true := by
  have hvs : v = s := by simpa [maskedEqual] using hv
  subst hvs
  simp only [npIsClose, decide_eq_true_eq]
  have hz : |v - v| = 0 := by simp
  rw [hz]
  positivity

/-- Witness for C5 at a concrete input: the sentinel itself is masked by
both classifications. -/
theorem c5_witness : npIsClose (-9999) (-9999) = true :=
  c5_exact_implies_isclose (-9999) (-9999) (by simp [maskedEqual])

/-- The forward affine map of a zero-rotation geotransform, pixel
upper-left corner convention: `(x, y) = (c + a * col, f + e * row)`. -/
def gtForward (c a f e : ℚ) (row col : Int) : ℚ × ℚ :=
  (c + a * col, f + e * row)

/-- The floor-division inverse of a zero-rotation geotransform, as
`ds.index` computes it: `row = floor((y - f) / e)`,
`col = floor((x - c) / a)`. -/
def gtInverse (c a f e : ℚ) (x y : ℚ) : Int × Int :=
  (⌊(y - f) / e⌋, ⌊(x - c) / a⌋)

/-- C7: for every zero-rotation geotransform with nonzero pixel sizes and
every in-bounds pixel index, applying the forward affine map and then the
floor-division inverse returns exactly the original `(row, col)`. -/
theorem c7_roundtrip (c a f0 e : ℚ) (row col : Int) (hgt wid : Nat)
    (ha : a ≠ 0) (he : e ≠ 0) (hr0 : 0 ≤ row) (hr : row < (hgt : Int))
    (hc0 : 0 ≤ col) (hc : col < (wid : Int)) :
    gtInverse c a f0 e (gtForward c a f0 e row col).1 (gtForward c a f0 e row col).2
      = (row, col) := by
  simp only [gtForward, gtInverse]
  have h1 : f0 + e * (row : ℚ) - f0 = e * (row : ℚ) := by ring
  have h2 : c + a * (col : ℚ) - c = a * (col : ℚ) := by ring
  rw [h1, h2, mul_div_cancel_left₀ _ he, mul_div_cancel_left₀ _ ha,
    Int.floor_intCast, Int.floor_intCast]

/-- Witness for C7 at a concrete input: the round trip holds at pixel
`(0, 0)` of a 1x1 raster with origin `(0, 0)` and pixel size `(1, -1)`. -/
theorem c7_witness :
    gtInverse 0 1 0 (-1) (gtForward 0 1 0 (-1) 0 0).1 (gtForward 0 1 0 (-1) 0 0).2
      = (0, 0) :=
  c7_roundtrip 0 1 0 (-1) 0 0 1 1 (by norm_num) (by norm_num)
    le_rfl (by norm_num) le_rfl (by norm_num)

/-- C8: the worked examples of the spec hold on the embedded engine: the
4x4 grid 1..16 with sentinel -9999 and no masked cell reduces to min 1,
max 16, mean 17/2 and population variance 85/4 — so the standard deviation
`sqrt(85/4)` lies strictly between 4.609 and 4.610 — its half-scale
resample is `[[3.5, 5.5], [11.5, 13.5]]`, and with cell (0,0) replaced by
the sentinel the reduction over the 15 valid cells has min 2. -/
theorem c8_worked_examples :
    reduce 4 4 g16 (some (-9999)) = some ⟨1, 16, 17 / 2, 85 / 4⟩
    ∧ (4609 / 1000 : ℝ) < Real.sqrt (85 / 4)
    ∧ Real.sqrt (85 / 4) < 4610 / 1000
    ∧ resample 4 4 g16 (some (-9999)) (1 / 2) = [[7 / 2, 11 / 2], [23 / 2, 27 / 2]]
    ∧ (reduce 4 4 g16m (some (-9999))).map Stats.min = some 2 := by
  refine ⟨?_, ?_, ?_, ?_, ?_⟩
  · have hcells : cellsOf 4 4 g16 = [1, 2, 3, 4, 5, 6, 7, 8, 9, 10, 11, 12, 13, 14, 15, 16] := by
      norm_num [cellsOf, List.range_succ, g16]
    have hvalid : validCells 4 4 g16 (some (-9999))
        = [1, 2, 3, 4, 5, 6, 7, 8, 9, 10, 11, 12, 13, 14, 15, 16] := by
      rw [validCells, hcells]
      norm_num [isValidCell, maskedEqual, List.filter_cons]
    rw [reduce, hvalid]
    norm_num [min_def, max_def]
  · rw [show (4609 / 1000 : ℝ) = Real.sqrt ((4609 / 1000) ^ 2) from
      (Real.sqrt_sq (by norm_num)).symm]
    apply Real.sqrt_lt_sqrt (by positivity)
    norm_num
  · apply (Real.sqrt_lt' (by norm_num)).mpr
    norm_num
  · have h2 : outDim 4 (1 / 2) = 2 := by
      norm_num [outDim, clampScale]
      decide
    rw [resample, h2]
    norm_num [List.range_succ, blockCells, blockLo, blockHi, List.range', g16,
      blockAverage, accumulate, isValidCell, maskedEqual]
  · have hcells : cellsOf 4 4 g16m
        = [-9999, 2, 3, 4, 5, 6, 7, 8, 9, 10, 11, 12, 13, 14, 15, 16] := by
      norm_num [cellsOf, List.range_succ, g16m]
    have hvalid : validCells 4 4 g16m (some (-9999))
        = [2, 3, 4, 5, 6, 7, 8, 9, 10, 11, 12, 13, 14, 15, 16] := by
      rw [validCells, hcells]
      norm_num [isValidCell, maskedEqual, List.filter_cons]
    rw [reduce, hvalid]
    norm_num [min_def]

/-- The file-existence guard at the top of check_tif.py main (lines 62-63):
`raise SystemExit(message)` aborts the run with a nonzero exit status when
the input path does not exist. -/
def checkTifGuard (fileExists : Bool) : Except String Unit :=
  if fileExists then Except.ok () else Except.error "File not found"

/-- The scale-argument guard of the export scripts (export_oisst.py lines
71-80 and export_hycom_temp0.py lines 70-78): `none` models an argument
that fails `int` parsing; a parsed scale must be positive, otherwise the
script exits with a message before any computation. -/
def exportGuard (arg : Option Int) : Except String Int :=
  match arg with
  | none => Except.error "SCALE must be a positive integer (metres per pixel)."
  | some n =>
      if n ≤ 0 then Except.error "SCALE must be a positive integer (metres per pixel)."
      else Except.ok n

/-- C9: the CLI aborts with a nonzero status and a descriptive message in
each configuration-error case — missing input file (check_tif.py and
compare_sst.py), CRS other than EPSG:4326 when point-sampling
(compare_sst.py), and a non-positive numeric export scale (both export
scripts) — and proceeds when none of these holds. -/
theorem c9_cli_guards (r : Raster) (lon lat : ℚ) (n : Int) :
    tiff_sst_value false r lon lat = TiffResult.sysExit "TIFF not found"
    ∧ (r.crsEpsg ≠ 4326 →
        tiff_sst_value true r lon lat =
          TiffResult.sysExit "TIFF CRS is not EPSG:4326 - re-project or adjust code.")
    ∧ checkTifGuard false = Except.error "File not found"
    ∧ checkTifGuard true = Except.ok ()
    ∧ (n ≤ 0 →
        exportGuard (some n) = Except.error "SCALE must be a positive integer (metres per pixel).")
    ∧ exportGuard none = Except.error "SCALE must be a positive integer (metres per pixel)."
    ∧ (0 < n → exportGuard (some n) = Except.ok n) := by
  refine ⟨rfl, ?_, rfl, rfl, ?_, rfl, ?_⟩
  · intro hcrs
    simp [tiff_sst_value, hcrs]
  · intro hn
    simp [exportGuard, hn]
  · intro hn
    simp [exportGuard, not_le.mpr hn]

/-- Witness for C9 at concrete inputs: a missing file, a Web Mercator
raster, the scale -5, and the scale 10000. -/
theorem c9_witness :
    tiff_sst_value false cexRaster 0 0 = TiffResult.sysExit "TIFF not found"
    ∧ tiff_sst_value true badCrsRaster 0 0 =
        TiffResult.sysExit "TIFF CRS is not EPSG:4326 - re-project or adjust code."
    ∧ exportGuard (some (-5)) = Except.error "SCALE must be a positive integer (metres per pixel)."
    ∧ exportGuard (some 10000) = Except.ok 10000 := by
  have h1 := c9_cli_guards cexRaster 0 0 (-5)
  have h2 := c9_cli_guards badCrsRaster 0 0 10000
  exact ⟨h1.1, h2.2.1 (by decide), h1.2.2.2.2.1 (by decide), h2.2.2.2.2.2.2 (by decide)⟩

/-- `make_default_fname` of compare_sst.py (lines 43-46): the tag is
`s{scale_m // 1000}k`, built with integer floor division. -/
def make_default_fname (scale_m : Nat) : String :=
  "oisst_20200315_s" ++ toString (scale_m / 1000) ++ "k.tif"

/-- The Drive export name built by export_oisst.py (lines 48-49). -/
def oisstExportName (scale_m : Nat) : String :=
  "oisst_20200315_s" ++ toString (scale_m / 1000) ++ "k"

/-- The Drive export name built by export_hycom_temp0.py (lines 47-48). -/
def hycomExportName (scale_m : Nat) : String :=
  "hycom_temp0_20200315_s" ++ toString (scale_m / 1000) ++ "k"

/-- C10: the default GeoTIFF name is computed by integer floor division of
the scale by 1000, the export scripts build their names the same way, any
two scales in the same whole kilometre collide on the same name, and every
scale below 1000 metres produces the tag `s0k`. -/
theorem c10_fname_floor_division (a b : Nat) (hab : a / 1000 = b / 1000) :
    make_default_fname a = make_default_fname b
    ∧ oisstExportName a = oisstExportName b
    ∧ hycomExportName a = hycomExportName b
    ∧ (a < 1000 → make_default_fname a = "oisst_20200315_s0k.tif")
    ∧ make_default_fname a = oisstExportName a ++ ".tif" := by
  refine ⟨?_, ?_, ?_, ?_, ?_⟩
  · rw [make_default_fname, make_default_fname, hab]
  · rw [oisstExportName, oisstExportName, hab]
  · rw [hycomExportName, hycomExportName, hab]
  · intro hlt
    rw [make_default_fname, Nat.div_eq_of_lt hlt]
    rfl
  · rw [make_default_fname, oisstExportName, String.append_assoc, String.append_assoc]
    rfl

/-- Witness for C10 at concrete inputs: the distinct scales 1500 m and
1999 m collide on one default filename, and 999 m yields the `s0k` tag. -/
theorem c10_witness :
    (1500 : Nat) ≠ 1999
    ∧ make_default_fname 1500 = make_default_fname 1999
    ∧ make_default_fname 999 = "oisst_20200315_s0k.tif" := by
  have h1 := c10_fname_floor_division 1500 1999 (by decide)
  have h2 := c10_fname_floor_division 999 999 rfl
  exact ⟨by decide, h1.1, h2.2.2.2.1 (by decide)⟩

end GeeScale
